import Mathlib

/-! Verification of the feature-extraction pipeline in `src/post_processing.py`.

The pipeline's pure algorithmic core (`pair_peaks`, `is_sinus_rhythm`, the
interval means, the quality-gate decision logic, `extract_features`
orchestration, `sanitize_for_json`) is embedded shallowly below.  External
numeric collaborators (the scipy `bandpass_filter` and the neurokit2
delineation calls `nk.ecg_process` / `nk.ecg_analyze`) are floating-point
library black boxes; they are modelled as explicit function parameters
returning `Except Unit _` — `.error` models a raised Python exception, which
the source catches with `try/except`.

Waveform samples and all derived quantities are modelled as exact rationals
(`ℚ`); peak indices are integers (`ℤ`).  Python's `np.nan` "missing" marker
for feature fields is modelled as `Option ℚ` with `none` for missing.
-/

/-! NumPy numeric helpers

`np_mean`, `np_var` embed `np.mean` / the population variance underlying
`np.std` (ddof = 0).  The source compares `np.std xs` against a nonnegative
threshold `t`; since `Real.sqrt` is monotone and both sides are nonnegative,
`np.std xs > t ↔ var xs > t^2` and `np.std xs ≥ t ↔ var xs ≥ t^2`, so the
comparisons are embedded on variances against `t^2`, staying inside `ℚ`.
`np.std` of an empty array is NaN and every NaN comparison is False in
Python; `np_var [] = 0` here and `t = 0.05 > 0` in every use, so the
embedded `≥` comparison is also False on the empty list. -/

def np_mean (xs : List ℚ) : ℚ := xs.sum / xs.length

def np_var (xs : List ℚ) : ℚ := np_mean (xs.map (fun x => (x - np_mean xs) ^ 2))

/-- `np.std xs > t` for a nonnegative threshold `t`, via variances. -/
def np_std_gt (xs : List ℚ) (t : ℚ) : Bool := decide (t ^ 2 < np_var xs)

/-- `np.std xs ≥ t` for a positive threshold `t`, via variances. -/
def np_std_ge (xs : List ℚ) (t : ℚ) : Bool := decide (t ^ 2 ≤ np_var xs)

/-! Peak Pairer — `pair_peaks` (post_processing.py lines 9–20)

The Python two-pointer sweep keeps a persistent index `j` into `peaks2`,
advancing it past every element `< peaks1[i]`; the recursion below carries
the not-yet-consumed suffix of `peaks2` instead, with `dropWhile` playing
the role of the inner `while` loop.  `j += 1` after an accepted pair becomes
recursing on `rest2`; an unaccepted `peaks1[i]` leaves `j` in place, i.e.
recursing on `b :: rest2`. -/

def pair_peaks (peaks1 peaks2 : List ℤ) (max_distance : ℤ) : List ℤ × List ℤ :=
  match peaks1 with
  | [] => ([], [])
  | a :: rest1 =>
    match peaks2.dropWhile (fun b => decide (b < a)) with
    | [] => pair_peaks rest1 [] max_distance
    | b :: rest2 =>
      if |b - a| ≤ max_distance then
        let tail := pair_peaks rest1 rest2 max_distance
        (a :: tail.1, b :: tail.2)
      else
        pair_peaks rest1 (b :: rest2) max_distance

/-! Rhythm Classifier — `is_sinus_rhythm` (post_processing.py lines 22–36) -/

/-- `p_peaks[p_peaks < r]`: the P-peaks strictly before sample index `r`. -/
def preceding_p (p_peaks : List ℤ) (r : ℤ) : List ℤ :=
  p_peaks.filter (fun p => decide (p < r))

/-- Loop body of the matching loop: `len(preceding_p) > 0 and
r - preceding_p[-1] < fs * 0.2`. -/
def r_matched (p_peaks : List ℤ) (r : ℤ) (fs : ℚ) : Bool :=
  match (preceding_p p_peaks r).getLast? with
  | none => false
  | some pl => decide (((r - pl : ℤ) : ℚ) < fs * 0.2)

/-- `np.diff(r_peaks) / fs`: consecutive R-peak differences in seconds. -/
def rr_intervals (r_peaks : List ℤ) (fs : ℚ) : List ℚ :=
  (List.zip r_peaks r_peaks.tail).map (fun pr => ((pr.2 - pr.1 : ℤ) : ℚ) / fs)

def is_sinus_rhythm (p_peaks r_peaks : List ℤ) (fs : ℚ) (rr_threshold : ℚ) : Bool :=
  if p_peaks.length < 3 ∨ r_peaks.length < 3 then false
  else if np_std_gt (rr_intervals r_peaks fs) rr_threshold then false
  else
    let matched := r_peaks.countP (fun r => r_matched p_peaks r fs)
    decide ((0.8 : ℚ) < (matched : ℚ) / (r_peaks.length : ℚ))

/-! External collaborators

`bandpass_filter` (scipy `butter`/`filtfilt`), `nk.ecg_process` and
`nk.ecg_analyze` are floating-point library calls; the pipeline treats them
as black boxes and catches the exceptions they raise.  They are modelled as
function parameters returning `Except Unit _` (`.error ()` = raised
exception).  `nk.ecg_process` yields the delineated index sets read off the
`signals` frame in the source (`ECG_P_Peaks`, `ECG_Q_Peaks`, `ECG_R_Peaks`,
`ECG_S_Peaks`, `ECG_T_Offsets`); `nk.ecg_analyze` yields the value of
`features.get("ECG_Rate_Mean", np.nan)` (`none` = NaN/absent). -/

structure Delineation where
  p : List ℤ
  q : List ℤ
  r : List ℤ
  s : List ℤ
  t : List ℤ
deriving Repr, DecidableEq

def FilterFn : Type := List ℚ → ℚ → Except Unit (List ℚ)

def OracleFn : Type := List ℚ → ℚ → Except Unit Delineation

def AnalyzeFn : Type := Delineation → ℚ → Except Unit (Option ℚ)

/-! Quality Gate — `check_signal_quality` (post_processing.py lines 47–57)

Note the source re-applies `bandpass_filter` to the signal it receives
before running the oracle and computing the standard deviation; the whole
body sits in a `try` whose handler returns `False`. -/

def check_signal_quality (bandpass : FilterFn) (ecg_process : OracleFn)
    (ecg_signal : List ℚ) (fs : ℚ) (min_r_peaks : ℕ) (min_std : ℚ) : Bool :=
  match bandpass ecg_signal fs with
  | .error _ => false
  | .ok filtered =>
    match ecg_process filtered fs with
    | .error _ => false
    | .ok signals =>
      decide (min_r_peaks ≤ signals.r.length) && np_std_ge filtered min_std

/-! Interval Estimator and Feature Summarizer — `extract_features`
(post_processing.py lines 61–119) -/

/-- `float(np.mean((matched2 - matched1) / fs * 1000))` over matched arrays
of equal length (guarded nonempty at every call site). -/
def interval_mean_ms (matched1 matched2 : List ℤ) (fs : ℚ) : ℚ :=
  np_mean ((List.zip matched2 matched1).map (fun pr => ((pr.1 - pr.2 : ℤ) : ℚ) / fs * 1000))

/-- FeatureRecord schema; `np.nan` initial values are `none`. -/
structure FeatureRecord where
  Heart_Rate_Mean : Option ℚ
  PR_Interval_ms : Option ℚ
  QRS_Duration_ms : Option ℚ
  QT_Interval_ms : Option ℚ
  Sinus_Rhythm : Bool
  Quality_OK : Bool
deriving Repr, DecidableEq

/-- The `summary` dict as initialised at the top of `extract_features`. -/
def default_summary : FeatureRecord := ⟨none, none, none, none, false, false⟩

/-- `extract_features` — the whole body is a `try` returning the partially
filled `summary` when a step raises; steps that can raise are the filter,
`nk.ecg_process` and `nk.ecg_analyze`.  `check_signal_quality` never raises.
The interval and rhythm steps are pure arithmetic on the delineation. -/
def extract_features (bandpass : FilterFn) (ecg_process : OracleFn)
    (ecg_analyze : AnalyzeFn) (ecg_signal : List ℚ) (fs : ℚ) : FeatureRecord :=
  match bandpass ecg_signal fs with
  | .error _ => default_summary
  | .ok filtered_signal =>
    let quality_ok := check_signal_quality bandpass ecg_process filtered_signal fs 3 0.05
    let summary0 : FeatureRecord := ⟨none, none, none, none, false, quality_ok⟩
    if quality_ok = false then summary0
    else
      match ecg_process filtered_signal fs with
      | .error _ => summary0
      | .ok signals =>
        match ecg_analyze signals fs with
        | .error _ => summary0
        | .ok rate =>
          let s1 : FeatureRecord := { summary0 with Heart_Rate_Mean := rate }
          let s2 : FeatureRecord :=
            if signals.q ≠ [] ∧ signals.s ≠ [] then
              let m := pair_peaks signals.q signals.s 200
              if m.1 ≠ [] then { s1 with QRS_Duration_ms := some (interval_mean_ms m.1 m.2 fs) }
              else s1
            else s1
          let s3 : FeatureRecord :=
            if signals.p ≠ [] ∧ signals.q ≠ [] then
              let m := pair_peaks signals.p signals.q 200
              if m.1 ≠ [] then { s2 with PR_Interval_ms := some (interval_mean_ms m.1 m.2 fs) }
              else s2
            else s2
          let s4 : FeatureRecord :=
            if signals.q ≠ [] ∧ signals.t ≠ [] then
              let m := pair_peaks signals.q signals.t 200
              if m.1 ≠ [] then { s3 with QT_Interval_ms := some (interval_mean_ms m.1 m.2 fs) }
              else s3
            else s3
          { s4 with Sinus_Rhythm := is_sinus_rhythm signals.p signals.r fs 0.2 }

/-! Serialization — `sanitize_for_json` (post_processing.py lines 123–132)

Python values reachable in a FeatureRecord-shaped structure: dicts (ordered
key → value maps), lists, NumPy scalars (`np.generic`: float/int/bool
scalars, converted by `.item()`), and plain primitives (float, int, bool,
str, None).  Mutual inductives keep the recursion structural. -/

mutual

inductive PyVal where
  | npFloat : ℚ → PyVal
  | npInt : ℤ → PyVal
  | npBool : Bool → PyVal
  | pyFloat : ℚ → PyVal
  | pyInt : ℤ → PyVal
  | pyBool : Bool → PyVal
  | pyStr : String → PyVal
  | pyNone : PyVal
  | list : PyList → PyVal
  | dict : PyDict → PyVal

inductive PyList where
  | nil : PyList
  | cons : PyVal → PyList → PyList

inductive PyDict where
  | nil : PyDict
  | cons : String → PyVal → PyDict → PyDict

end

mutual

/-- `sanitize_for_json`: dict/list comprehensions recurse preserving keys
and order; `np.generic` scalars become plain primitives via `.item()`; the
`else` branch returns everything else unchanged. -/
def sanitize_for_json : PyVal → PyVal
  | .dict kvs => .dict (sanitize_dict kvs)
  | .list xs => .list (sanitize_list xs)
  | .npFloat x => .pyFloat x
  | .npInt x => .pyInt x
  | .npBool x => .pyBool x
  | .pyFloat x => .pyFloat x
  | .pyInt x => .pyInt x
  | .pyBool x => .pyBool x
  | .pyStr x => .pyStr x
  | .pyNone => .pyNone

def sanitize_list : PyList → PyList
  | .nil => .nil
  | .cons v rest => .cons (sanitize_for_json v) (sanitize_list rest)

def sanitize_dict : PyDict → PyDict
  | .nil => .nil
  | .cons k v rest => .cons k (sanitize_for_json v) (sanitize_dict rest)

end

mutual

/-- A structure made only of plain primitives, lists and dicts — no NumPy
scalar anywhere. -/
def isPlain : PyVal → Bool
  | .dict kvs => isPlainDict kvs
  | .list xs => isPlainList xs
  | .npFloat _ => false
  | .npInt _ => false
  | .npBool _ => false
  | .pyFloat _ => true
  | .pyInt _ => true
  | .pyBool _ => true
  | .pyStr _ => true
  | .pyNone => true

def isPlainList : PyList → Bool
  | .nil => true
  | .cons v rest => isPlain v && isPlainList rest

def isPlainDict : PyDict → Bool
  | .nil => true
  | .cons _ v rest => isPlain v && isPlainDict rest

end

/-! Helper lemmas for the Peak Pairer -/

theorem dropWhile_head_false {p : ℤ → Bool} {l r : List ℤ} {b : ℤ}
    (h : l.dropWhile p = b :: r) : p b = false := by
  have := List.head_dropWhile_not p l (by simp [h])
  simpa [h] using this

theorem pair_peaks_forall₂ (d : ℤ) :
    ∀ (A B : List ℤ),
      List.Forall₂ (fun a b => a ≤ b ∧ |b - a| ≤ d) (pair_peaks A B d).1 (pair_peaks A B d).2 := by
  intro A
  induction A with
  | nil => intro B; simp [pair_peaks]
  | cons a rest1 ih =>
    intro B
    rw [pair_peaks]
    cases h : B.dropWhile (fun b => decide (b < a)) with
    | nil => exact ih []
    | cons b rest2 =>
      have hba : a ≤ b := by
        have := dropWhile_head_false h
        simpa using le_of_not_lt (by simpa using this)
      by_cases habs : |b - a| ≤ d
      · simpa [habs] using List.Forall₂.cons ⟨hba, habs⟩ (ih rest2)
      · simpa [habs] using ih (b :: rest2)

theorem pair_peaks_fst_sublist (d : ℤ) :
    ∀ (A B : List ℤ), (pair_peaks A B d).1.Sublist A := by
  intro A
  induction A with
  | nil => intro B; simp [pair_peaks]
  | cons a rest1 ih =>
    intro B
    rw [pair_peaks]
    cases h : B.dropWhile (fun b => decide (b < a)) with
    | nil => exact (ih []).trans (List.sublist_cons_self a rest1)
    | cons b rest2 =>
      by_cases habs : |b - a| ≤ d
      · simpa [habs] using (ih rest2).cons₂ a
      · simpa [habs] using (ih (b :: rest2)).trans (List.sublist_cons_self a rest1)

theorem pair_peaks_snd_sublist (d : ℤ) :
    ∀ (A B : List ℤ), (pair_peaks A B d).2.Sublist B := by
  intro A
  induction A with
  | nil => intro B; simp [pair_peaks]
  | cons a rest1 ih =>
    intro B
    have hdw : (B.dropWhile (fun b => decide (b < a))).Sublist B :=
      List.dropWhile_sublist _
    rw [pair_peaks]
    cases h : B.dropWhile (fun b => decide (b < a)) with
    | nil =>
      have h0 : (pair_peaks rest1 [] d).2 = [] := List.sublist_nil.mp (ih [])
      rw [h0]
      exact List.nil_sublist B
    | cons b rest2 =>
      rw [h] at hdw
      by_cases habs : |b - a| ≤ d
      · have : ((pair_peaks rest1 rest2 d).2).Sublist rest2 := ih rest2
        simpa [habs] using ((this.cons₂ b).trans hdw)
      · simpa [habs] using (ih (b :: rest2)).trans hdw

theorem pair_peaks_cons_within (a b : ℤ) (rest1 rest2 : List ℤ) (d : ℤ)
    (hab : a ≤ b) (hd : |b - a| ≤ d) :
    pair_peaks (a :: rest1) (b :: rest2) d =
      (a :: (pair_peaks rest1 rest2 d).1, b :: (pair_peaks rest1 rest2 d).2) := by
  rw [pair_peaks]
  have hdw : (b :: rest2).dropWhile (fun x => decide (x < a)) = b :: rest2 := by
    simp [List.dropWhile_cons, not_lt.mpr hab]
  rw [hdw]
  simp [hd]

/-- C6 — Peak Pairer invariants: for strictly increasing integer
sequences `A`, `B` and any `max_distance`, the two outputs have equal
length, at most `min |A| |B|` (so empty input gives empty output), are
non-decreasing, repeat no element, and every emitted pair `(a, b)`
satisfies `a ≤ b` and `|b − a| ≤ max_distance`; a head pair exactly at the
tolerance boundary is emitted (the test is `≤`, not `<`). -/
theorem C6_pair_peaks_invariants (A B : List ℤ) (d : ℤ)
    (hA : A.Sorted (· < ·)) (hB : B.Sorted (· < ·)) :
    (pair_peaks A B d).1.length = (pair_peaks A B d).2.length ∧
    (pair_peaks A B d).1.length ≤ min A.length B.length ∧
    (A = [] ∨ B = [] → pair_peaks A B d = ([], [])) ∧
    (pair_peaks A B d).1.Sorted (· ≤ ·) ∧
    (pair_peaks A B d).2.Sorted (· ≤ ·) ∧
    (pair_peaks A B d).1.Nodup ∧
    (pair_peaks A B d).2.Nodup ∧
    List.Forall₂ (fun a b => a ≤ b ∧ |b - a| ≤ d) (pair_peaks A B d).1 (pair_peaks A B d).2 ∧
    (∀ (a b : ℤ) (rest1 rest2 : List ℤ), a ≤ b → |b - a| ≤ d →
      pair_peaks (a :: rest1) (b :: rest2) d =
        (a :: (pair_peaks rest1 rest2 d).1, b :: (pair_peaks rest1 rest2 d).2)) := by
  have hf₂ := pair_peaks_forall₂ d A B
  have hs1 := pair_peaks_fst_sublist d A B
  have hs2 := pair_peaks_snd_sublist d A B
  have hlen : (pair_peaks A B d).1.length = (pair_peaks A B d).2.length := hf₂.length_eq
  refine ⟨hlen, ?_, ?_, ?_, ?_, ?_, ?_, hf₂, ?_⟩
  · exact le_min hs1.length_le (hlen ▸ hs2.length_le)
  · rintro (rfl | rfl)
    · simp [pair_peaks]
    · have h2 : (pair_peaks A [] d).2 = [] := List.sublist_nil.mp (pair_peaks_snd_sublist d A [])
      have hl := (pair_peaks_forall₂ d A []).length_eq
      rw [h2] at hl
      have h1 : (pair_peaks A [] d).1 = [] := List.eq_nil_of_length_eq_zero (by simpa using hl)
      exact Prod.ext h1 h2
  · exact (hA.sublist hs1).imp le_of_lt
  · exact (hB.sublist hs2).imp le_of_lt
  · exact (hA.sublist hs1).nodup
  · exact (hB.sublist hs2).nodup
  · exact fun a b rest1 rest2 hab hd => pair_peaks_cons_within a b rest1 rest2 d hab hd

/-- Witness for C6 at `A = [1, 5, 9]`, `B = [2, 6, 20]`, `max_distance = 3`
(pairs `(1,2)` and `(5,6)`; `9` stays unmatched). -/
theorem C6_witness :
    ([1, 5, 9] : List ℤ).Sorted (· < ·) ∧ ([2, 6, 20] : List ℤ).Sorted (· < ·) ∧
    (pair_peaks [1, 5, 9] [2, 6, 20] 3).1.length = (pair_peaks [1, 5, 9] [2, 6, 20] 3).2.length ∧
    (pair_peaks [1, 5, 9] [2, 6, 20] 3).1.length ≤ min 3 3 ∧
    (pair_peaks [1, 5, 9] [2, 6, 20] 3).1.Nodup ∧
    List.Forall₂ (fun a b => a ≤ b ∧ |b - a| ≤ 3)
      (pair_peaks [1, 5, 9] [2, 6, 20] 3).1 (pair_peaks [1, 5, 9] [2, 6, 20] 3).2 := by
  have h := C6_pair_peaks_invariants [1, 5, 9] [2, 6, 20] 3 (by decide) (by decide)
  exact ⟨by decide, by decide, h.1, by simpa using h.2.1, h.2.2.2.2.2.1, h.2.2.2.2.2.2.2.1⟩

/-! C1 — end-to-end pairing + interval estimation scenario -/

/-- C1 counterexample — on `A = [100, 500, 900]`, `B = [150, 560, 1500]`
with `max_distance = 200` and `fs = 250`, the pairs are `(100,150)` and
`(500,560)` and the mean duration is `(200 + 240) / 2 = 220` ms, not the
136 ms stated by the claim. -/
theorem C1_counterexample :
    interval_mean_ms (pair_peaks [100, 500, 900] [150, 560, 1500] 200).1
      (pair_peaks [100, 500, 900] [150, 560, 1500] 200).2 250 ≠ 136 := by
  have hp : pair_peaks [100, 500, 900] [150, 560, 1500] 200 = ([100, 500], [150, 560]) := by
    decide
  rw [hp]
  norm_num [interval_mean_ms, np_mean]

/-- C1 (amended) — pairing `A = [100, 500, 900]` with
`B = [150, 560, 1500]` at `max_distance = 200` and applying the Interval
Estimator at `fs = 250` yields a mean of 220 ms. -/
theorem C1_pairing_interval_mean :
    interval_mean_ms (pair_peaks [100, 500, 900] [150, 560, 1500] 200).1
      (pair_peaks [100, 500, 900] [150, 560, 1500] 200).2 250 = 220 := by
  have hp : pair_peaks [100, 500, 900] [150, 560, 1500] 200 = ([100, 500], [150, 560]) := by
    decide
  rw [hp]
  norm_num [interval_mean_ms, np_mean]

/-! C2 — rhythm-classifier end-to-end scenario -/

/-- C2 counterexample — for `P = [50, 300, 600]`, `R = [260, 520, 780]`
and `fs = 250` the RR standard deviation is 0 (below threshold), but every
R-peak's most recent preceding P-peak lies 210, 220 resp. 180 samples
earlier — far beyond the `fs * 0.2 = 50`-sample window — so the classifier
returns `false`, not `true` as the claim states. -/
theorem C2_counterexample :
    ¬ is_sinus_rhythm [50, 300, 600] [260, 520, 780] 250 0.2 = true := by
  norm_num [is_sinus_rhythm, np_std_gt, np_var, np_mean, rr_intervals, r_matched,
    preceding_p, List.filter, List.getLast?, List.countP, List.countP.go]

/-- C2 (amended) — for `P = [50, 300, 600]`, `R = [260, 520, 780]` and
`fs = 250`, the Rhythm Classifier returns `false`: although the RR standard
deviation is below the threshold, no R-peak has a preceding P-peak within
the 50-sample window. -/
theorem C2_scenario_not_sinus :
    is_sinus_rhythm [50, 300, 600] [260, 520, 780] 250 0.2 = false := by
  norm_num [is_sinus_rhythm, np_std_gt, np_var, np_mean, rr_intervals, r_matched,
    preceding_p, List.filter, List.getLast?, List.countP, List.countP.go]

/-! C10 — strict boundaries of the Rhythm Classifier -/

/-- C10 — the Rhythm Classifier's boundaries are strict: (a) an R-peak
whose most recent preceding P-peak lies exactly `fs * 0.2` samples earlier
is not counted as matched (`<`, not `≤`); (b) a P-peak at the very index of
an R-peak is not treated as preceding it (`p_peaks < r` is strict); (c) for
P/R sequences meeting the minimum-count and RR-regularity conditions, a
matched fraction of exactly 80 % yields `false` (`> 0.8` is strict). -/
theorem C10_strict_boundaries :
    (∀ (p_peaks : List ℤ) (r pl : ℤ) (fs : ℚ),
        (preceding_p p_peaks r).getLast? = some pl →
        ((r - pl : ℤ) : ℚ) = fs * 0.2 →
        r_matched p_peaks r fs = false) ∧
    (∀ (p_peaks : List ℤ) (r : ℤ), r ∉ preceding_p p_peaks r) ∧
    (∀ (p_peaks r_peaks : List ℤ) (fs : ℚ),
        ¬ p_peaks.length < 3 → ¬ r_peaks.length < 3 →
        np_std_gt (rr_intervals r_peaks fs) 0.2 = false →
        ((r_peaks.countP (fun r => r_matched p_peaks r fs) : ℚ) / (r_peaks.length : ℚ)) = 0.8 →
        is_sinus_rhythm p_peaks r_peaks fs 0.2 = false) := by
  refine ⟨?_, ?_, ?_⟩
  · intro p_peaks r pl fs hlast heq
    rw [r_matched, hlast]
    simp [heq]
  · intro p_peaks r hmem
    have := List.of_mem_filter hmem
    simp at this
  · intro p_peaks r_peaks fs h3p h3r hstd hfrac
    rw [is_sinus_rhythm]
    rw [if_neg (by push_neg; omega)]
    rw [hstd]
    simp only [Bool.false_eq_true, if_false, hfrac]
    norm_num

/-- Witness for C10: (a) `r = 100`, `pl = 50`, `fs = 250` sits exactly at
the `fs * 0.2 = 50`-sample boundary and is unmatched; (b) a P-peak at index
100 never precedes the R-peak at 100; (c) with `P = [60, 310, 560, 810, 1040]`,
`R = [100, 350, 600, 850, 1100]`, `fs = 250`, exactly 4 of 5 R-peaks match
(fraction exactly 0.8) and the classifier answers `false`. -/
theorem C10_witness :
    ((preceding_p [50] 100).getLast? = some 50 ∧
      (((100 : ℤ) - 50 : ℤ) : ℚ) = 250 * 0.2 ∧
      r_matched [50] 100 250 = false) ∧
    ((100 : ℤ) ∉ preceding_p [100, 60] 100) ∧
    (¬ ([60, 310, 560, 810, 1040] : List ℤ).length < 3 ∧
      ¬ ([100, 350, 600, 850, 1100] : List ℤ).length < 3 ∧
      np_std_gt (rr_intervals [100, 350, 600, 850, 1100] 250) 0.2 = false ∧
      ((([100, 350, 600, 850, 1100] : List ℤ).countP
          (fun r => r_matched [60, 310, 560, 810, 1040] r 250) : ℚ) /
        (([100, 350, 600, 850, 1100] : List ℤ).length : ℚ)) = 0.8 ∧
      is_sinus_rhythm [60, 310, 560, 810, 1040] [100, 350, 600, 850, 1100] 250 0.2 = false) := by
  have hlast : (preceding_p [50] 100).getLast? = some 50 := by decide
  have heq : (((100 : ℤ) - 50 : ℤ) : ℚ) = 250 * 0.2 := by norm_num
  have h3p : ¬ ([60, 310, 560, 810, 1040] : List ℤ).length < 3 := by decide
  have h3r : ¬ ([100, 350, 600, 850, 1100] : List ℤ).length < 3 := by decide
  have hstd : np_std_gt (rr_intervals [100, 350, 600, 850, 1100] 250) 0.2 = false := by
    norm_num [np_std_gt, np_var, np_mean, rr_intervals]
  have hfrac : ((([100, 350, 600, 850, 1100] : List ℤ).countP
        (fun r => r_matched [60, 310, 560, 810, 1040] r 250) : ℚ) /
      (([100, 350, 600, 850, 1100] : List ℤ).length : ℚ)) = 0.8 := by
    norm_num [List.countP, List.countP.go, r_matched, preceding_p, List.filter, List.getLast?]
  refine ⟨⟨hlast, heq, C10_strict_boundaries.1 [50] 100 50 250 hlast heq⟩,
    C10_strict_boundaries.2.1 [100, 60] 100,
    h3p, h3r, hstd, hfrac,
    C10_strict_boundaries.2.2 [60, 310, 560, 810, 1040] [100, 350, 600, 850, 1100] 250
      h3p h3r hstd hfrac⟩

/-! Concrete collaborator instances used in witnesses and
counterexamples -/

/-- A conditioning filter that zeroes the waveform (an extreme stand-in for
the band-limiting the real filter performs, e.g. on a pure-low-frequency
signal). -/
def zeroing_filter : FilterFn := fun sig _ => .ok (sig.map (fun _ => 0))

/-- An oracle that finds three R-peaks on any waveform that is not
identically zero, and none on a flat one. -/
def flatline_oracle : OracleFn := fun sig _ =>
  if sig.all (fun x => decide (x = 0)) then .ok ⟨[], [], [], [], []⟩
  else .ok ⟨[], [], [0, 1, 2], [], []⟩

def ok_filter : FilterFn := fun sig _ => .ok sig

def fail_filter : FilterFn := fun _ _ => .error ()

def fail_oracle : OracleFn := fun _ _ => .error ()

/-- A filter that prepends a zero sample, so the once- and twice-filtered
signals have different lengths. -/
def prepend_filter : FilterFn := fun sig _ => .ok (0 :: sig)

/-- An oracle succeeding only on waveforms of length 6 (the twice-filtered
length in the C4 witness), failing elsewhere. -/
def length6_oracle : OracleFn := fun sig _ =>
  if sig.length = 6 then .ok ⟨[], [], [0, 1, 2], [], []⟩ else .error ()

def ok_oracle : OracleFn := fun _ _ => .ok ⟨[], [], [0, 1, 2], [], []⟩

/-- An oracle whose delineation admits no pair within `max_distance = 200`
for (Q,S), (P,Q) and (Q,T). -/
def sparse_oracle : OracleFn := fun _ _ => .ok ⟨[0], [300], [0, 250, 500], [900], [1500]⟩

def fail_analyze : AnalyzeFn := fun _ _ => .error ()

def ok_analyze : AnalyzeFn := fun _ _ => .ok (some 120)

/-! C3 — what the Quality Gate's decision is actually a function of -/

/-- C3 counterexample — `check_signal_quality` re-filters the waveform
it receives before counting R-peaks and taking the standard deviation, so
its decision is *not* the stated function of the conditioned input: on the
waveform `[1, -1, 1, -1]` (std `1 ≥ 0.05`, three R-peaks found by the
oracle on it) a filter that zeroes the signal makes the gate reject. -/
theorem C3_counterexample :
    check_signal_quality zeroing_filter flatline_oracle [1, -1, 1, -1] 250 3 0.05 = false ∧
    (∃ d : Delineation, flatline_oracle [1, -1, 1, -1] 250 = .ok d ∧ 3 ≤ d.r.length) ∧
    np_std_ge [1, -1, 1, -1] 0.05 = true := by
  refine ⟨?_, ⟨⟨[], [], [0, 1, 2], [], []⟩, ?_, by decide⟩, ?_⟩
  · norm_num [check_signal_quality, zeroing_filter, flatline_oracle, np_std_ge, np_var, np_mean]
  · norm_num [flatline_oracle]
  · norm_num [np_std_ge, np_var, np_mean]

/-- C3 (amended) — the Quality Gate accepts exactly when re-filtering
its input succeeds, the Oracle succeeds on the *re-filtered* waveform with
at least 3 R-peaks, and the *re-filtered* waveform's standard deviation is
at least 0.05. -/
theorem C3_quality_gate_characterisation (bandpass : FilterFn) (ecg_process : OracleFn)
    (ecg_signal : List ℚ) (fs : ℚ) :
    check_signal_quality bandpass ecg_process ecg_signal fs 3 0.05 = true ↔
      ∃ (filtered : List ℚ) (signals : Delineation),
        bandpass ecg_signal fs = .ok filtered ∧
        ecg_process filtered fs = .ok signals ∧
        3 ≤ signals.r.length ∧
        np_std_ge filtered 0.05 = true := by
  rw [check_signal_quality]
  cases hf : bandpass ecg_signal fs with
  | error e => simp [hf]
  | ok filtered =>
    cases ho : ecg_process filtered fs with
    | error e => simp [ho]
    | ok signals => simp [ho]

/-! C8 — the Quality Gate fails closed on oracle failure -/

/-- C8 — whenever the Oracle call inside the Quality Gate raises (for
any input, any thresholds), `check_signal_quality` returns `false`; being a
total function of its `Except`-returning collaborators, it propagates
nothing. -/
theorem C8_quality_gate_oracle_failure (bandpass : FilterFn) (ecg_process : OracleFn)
    (ecg_signal filtered : List ℚ) (fs : ℚ) (min_r_peaks : ℕ) (min_std : ℚ)
    (hf : bandpass ecg_signal fs = .ok filtered)
    (ho : ecg_process filtered fs = .error ()) :
    check_signal_quality bandpass ecg_process ecg_signal fs min_r_peaks min_std = false := by
  rw [check_signal_quality, hf]
  simp [ho]

/-- Witness for C8: an always-failing oracle behind an identity filter. -/
theorem C8_witness :
    ok_filter [3, 1, 4] 250 = .ok [3, 1, 4] ∧
    fail_oracle [3, 1, 4] 250 = .error () ∧
    check_signal_quality ok_filter fail_oracle [3, 1, 4] 250 3 0.05 = false :=
  ⟨rfl, rfl, C8_quality_gate_oracle_failure ok_filter fail_oracle [3, 1, 4] [3, 1, 4]
    250 3 0.05 rfl rfl⟩

/-! Helper lemmas for the Feature Summarizer -/

theorem extract_features_default_or_quality (bandpass : FilterFn) (ecg_process : OracleFn)
    (ecg_analyze : AnalyzeFn) (ecg_signal : List ℚ) (fs : ℚ) :
    extract_features bandpass ecg_process ecg_analyze ecg_signal fs = default_summary ∨
      (extract_features bandpass ecg_process ecg_analyze ecg_signal fs).Quality_OK = true := by
  rw [extract_features]
  cases hf : bandpass ecg_signal fs with
  | error e => exact Or.inl rfl
  | ok filtered =>
    cases hq : check_signal_quality bandpass ecg_process filtered fs 3 0.05 with
    | false => left; simp [hq, default_summary]
    | true =>
      right
      simp only [hq, Bool.true_eq_false, if_false]
      cases ho : ecg_process filtered fs with
      | error e => simp [ho]
      | ok signals =>
        cases ha : ecg_analyze signals fs with
        | error e => simp [ho, ha]
        | ok rate =>
          simp [ho, ha, apply_ite FeatureRecord.Quality_OK]

/-! C5 — no timing numbers for rejected signals -/

/-- C5 — whatever the collaborators and input, if the returned record
has `Quality_OK = false` then every rate/interval field is the missing
marker and `Sinus_Rhythm` is `false`. -/
theorem C5_quality_false_all_missing (bandpass : FilterFn) (ecg_process : OracleFn)
    (ecg_analyze : AnalyzeFn) (ecg_signal : List ℚ) (fs : ℚ)
    (h : (extract_features bandpass ecg_process ecg_analyze ecg_signal fs).Quality_OK = false) :
    (extract_features bandpass ecg_process ecg_analyze ecg_signal fs).Heart_Rate_Mean = none ∧
    (extract_features bandpass ecg_process ecg_analyze ecg_signal fs).PR_Interval_ms = none ∧
    (extract_features bandpass ecg_process ecg_analyze ecg_signal fs).QRS_Duration_ms = none ∧
    (extract_features bandpass ecg_process ecg_analyze ecg_signal fs).QT_Interval_ms = none ∧
    (extract_features bandpass ecg_process ecg_analyze ecg_signal fs).Sinus_Rhythm = false := by
  rcases extract_features_default_or_quality bandpass ecg_process ecg_analyze ecg_signal fs with
    hd | hq
  · rw [hd]
    exact ⟨rfl, rfl, rfl, rfl, rfl⟩
  · rw [h] at hq
    cases hq

/-- Witness for C5: the all-zero waveform of end-to-end scenario 1 — the
oracle finds no R-peak on a flat line, the gate rejects, and the record is
all-missing. -/
theorem C5_witness :
    (extract_features ok_filter flatline_oracle ok_analyze [0, 0, 0] 250).Quality_OK = false ∧
    ((extract_features ok_filter flatline_oracle ok_analyze [0, 0, 0] 250).Heart_Rate_Mean = none ∧
     (extract_features ok_filter flatline_oracle ok_analyze [0, 0, 0] 250).PR_Interval_ms = none ∧
     (extract_features ok_filter flatline_oracle ok_analyze [0, 0, 0] 250).QRS_Duration_ms = none ∧
     (extract_features ok_filter flatline_oracle ok_analyze [0, 0, 0] 250).QT_Interval_ms = none ∧
     (extract_features ok_filter flatline_oracle ok_analyze [0, 0, 0] 250).Sinus_Rhythm = false) :=
  ⟨rfl, C5_quality_false_all_missing ok_filter flatline_oracle ok_analyze [0, 0, 0] 250 rfl⟩

/-! C4 — fail-soft orchestration of the Feature Summarizer -/

/-- C4 — `extract_features` is a total function (it never propagates a
collaborator failure) returning a full six-field record; if the filter step
fails every field has its missing/false default, and when the oracle or the
rate analysis fails after the quality check passed, the already-set
`Quality_OK = true` is kept while all remaining fields stay at their
missing defaults. -/
theorem C4_summarizer_fail_soft (bandpass : FilterFn) (ecg_process : OracleFn)
    (ecg_analyze : AnalyzeFn) (ecg_signal : List ℚ) (fs : ℚ) :
    (bandpass ecg_signal fs = .error () →
      extract_features bandpass ecg_process ecg_analyze ecg_signal fs = default_summary) ∧
    (∀ filtered : List ℚ, bandpass ecg_signal fs = .ok filtered →
      check_signal_quality bandpass ecg_process filtered fs 3 0.05 = true →
      ecg_process filtered fs = .error () →
      extract_features bandpass ecg_process ecg_analyze ecg_signal fs =
        ⟨none, none, none, none, false, true⟩) ∧
    (∀ (filtered : List ℚ) (signals : Delineation), bandpass ecg_signal fs = .ok filtered →
      check_signal_quality bandpass ecg_process filtered fs 3 0.05 = true →
      ecg_process filtered fs = .ok signals →
      ecg_analyze signals fs = .error () →
      extract_features bandpass ecg_process ecg_analyze ecg_signal fs =
        ⟨none, none, none, none, false, true⟩) := by
  refine ⟨?_, ?_, ?_⟩
  · intro hf
    rw [extract_features, hf]
  · intro filtered hf hq ho
    rw [extract_features, hf]
    simp [hq, ho]
  · intro filtered signals hf hq ho ha
    rw [extract_features, hf]
    simp [hq, ho, ha]

/-- Witness for C4: the three fail-soft paths exercised on concrete
collaborators — a failing filter; an oracle succeeding only during the
quality check (on the twice-filtered, length-6 signal) and failing at the
delineation step; and a failing rate analysis. -/
theorem C4_witness :
    (fail_filter [1, -1, 1, -1] 250 = .error () ∧
      extract_features fail_filter ok_oracle ok_analyze [1, -1, 1, -1] 250 = default_summary) ∧
    (prepend_filter [1, -1, 1, -1] 250 = .ok [0, 1, -1, 1, -1] ∧
      check_signal_quality prepend_filter length6_oracle [0, 1, -1, 1, -1] 250 3 0.05 = true ∧
      length6_oracle [0, 1, -1, 1, -1] 250 = .error () ∧
      extract_features prepend_filter length6_oracle ok_analyze [1, -1, 1, -1] 250 =
        ⟨none, none, none, none, false, true⟩) ∧
    (ok_filter [1, -1, 1, -1] 250 = .ok [1, -1, 1, -1] ∧
      check_signal_quality ok_filter ok_oracle [1, -1, 1, -1] 250 3 0.05 = true ∧
      ok_oracle [1, -1, 1, -1] 250 = .ok ⟨[], [], [0, 1, 2], [], []⟩ ∧
      fail_analyze ⟨[], [], [0, 1, 2], [], []⟩ 250 = .error () ∧
      extract_features ok_filter ok_oracle fail_analyze [1, -1, 1, -1] 250 =
        ⟨none, none, none, none, false, true⟩) := by
  have hq2 : check_signal_quality prepend_filter length6_oracle [0, 1, -1, 1, -1] 250 3 0.05 =
      true := by
    norm_num [check_signal_quality, prepend_filter, length6_oracle, np_std_ge, np_var, np_mean]
  have hq3 : check_signal_quality ok_filter ok_oracle [1, -1, 1, -1] 250 3 0.05 = true := by
    norm_num [check_signal_quality, ok_filter, ok_oracle, np_std_ge, np_var, np_mean]
  refine ⟨⟨rfl, ?_⟩, ⟨rfl, hq2, rfl, ?_⟩, ⟨rfl, hq3, rfl, rfl, ?_⟩⟩
  · exact (C4_summarizer_fail_soft fail_filter ok_oracle ok_analyze [1, -1, 1, -1] 250).1 rfl
  · exact (C4_summarizer_fail_soft prepend_filter length6_oracle ok_analyze
      [1, -1, 1, -1] 250).2.1 [0, 1, -1, 1, -1] rfl hq2 rfl
  · exact (C4_summarizer_fail_soft ok_filter ok_oracle fail_analyze
      [1, -1, 1, -1] 250).2.2 [1, -1, 1, -1] ⟨[], [], [0, 1, 2], [], []⟩ rfl hq3 rfl rfl

/-! C7 — empty pairings give the missing marker -/

/-- C7 — on the successful path (filter ok, quality passed, oracle and
rate analysis ok), whenever a pairing step yields zero pairs, the
corresponding interval field of the returned record is the missing marker
`none` — never zero and never a failure. -/
theorem C7_zero_pairs_missing (bandpass : FilterFn) (ecg_process : OracleFn)
    (ecg_analyze : AnalyzeFn) (ecg_signal : List ℚ) (fs : ℚ)
    (filtered : List ℚ) (signals : Delineation) (rate : Option ℚ)
    (hf : bandpass ecg_signal fs = .ok filtered)
    (hq : check_signal_quality bandpass ecg_process filtered fs 3 0.05 = true)
    (ho : ecg_process filtered fs = .ok signals)
    (ha : ecg_analyze signals fs = .ok rate) :
    ((pair_peaks signals.q signals.s 200).1 = [] →
      (extract_features bandpass ecg_process ecg_analyze ecg_signal fs).QRS_Duration_ms =
        none) ∧
    ((pair_peaks signals.p signals.q 200).1 = [] →
      (extract_features bandpass ecg_process ecg_analyze ecg_signal fs).PR_Interval_ms =
        none) ∧
    ((pair_peaks signals.q signals.t 200).1 = [] →
      (extract_features bandpass ecg_process ecg_analyze ecg_signal fs).QT_Interval_ms =
        none) := by
  refine ⟨?_, ?_, ?_⟩
  · intro h
    rw [extract_features, hf]
    simp [hq, ho, ha, h, apply_ite FeatureRecord.QRS_Duration_ms]
  · intro h
    rw [extract_features, hf]
    simp [hq, ho, ha, h, apply_ite FeatureRecord.PR_Interval_ms]
  · intro h
    rw [extract_features, hf]
    simp [hq, ho, ha, h, apply_ite FeatureRecord.QT_Interval_ms]

/-- Witness for C7: a delineation (`P = [0]`, `Q = [300]`,
`R = [0, 250, 500]`, `S = [900]`, `T = [1500]`) in which every pairing is
farther than 200 samples apart, so all three pairings are empty and all
three interval fields come out missing. -/
theorem C7_witness :
    ok_filter [1, -1, 1, -1] 250 = .ok [1, -1, 1, -1] ∧
    check_signal_quality ok_filter sparse_oracle [1, -1, 1, -1] 250 3 0.05 = true ∧
    sparse_oracle [1, -1, 1, -1] 250 = .ok ⟨[0], [300], [0, 250, 500], [900], [1500]⟩ ∧
    ok_analyze ⟨[0], [300], [0, 250, 500], [900], [1500]⟩ 250 = .ok (some 120) ∧
    (pair_peaks [300] [900] 200).1 = [] ∧
    (pair_peaks [0] [300] 200).1 = [] ∧
    (pair_peaks [300] [1500] 200).1 = [] ∧
    (extract_features ok_filter sparse_oracle ok_analyze [1, -1, 1, -1] 250).QRS_Duration_ms =
      none ∧
    (extract_features ok_filter sparse_oracle ok_analyze [1, -1, 1, -1] 250).PR_Interval_ms =
      none ∧
    (extract_features ok_filter sparse_oracle ok_analyze [1, -1, 1, -1] 250).QT_Interval_ms =
      none := by
  have hq : check_signal_quality ok_filter sparse_oracle [1, -1, 1, -1] 250 3 0.05 = true := by
    norm_num [check_signal_quality, ok_filter, sparse_oracle, np_std_ge, np_var, np_mean]
  have h := C7_zero_pairs_missing ok_filter sparse_oracle ok_analyze [1, -1, 1, -1] 250
    [1, -1, 1, -1] ⟨[0], [300], [0, 250, 500], [900], [1500]⟩ (some 120) rfl hq rfl rfl
  exact ⟨rfl, hq, rfl, rfl, by decide, by decide, by decide,
    h.1 (by decide), h.2.1 (by decide), h.2.2 (by decide)⟩

/-! Helper lemmas for sanitization -/

mutual

theorem sanitize_for_json_idem : ∀ v : PyVal,
    sanitize_for_json (sanitize_for_json v) = sanitize_for_json v
  | .dict kvs => by simp [sanitize_for_json, sanitize_dict_idem kvs]
  | .list xs => by simp [sanitize_for_json, sanitize_list_idem xs]
  | .npFloat _ => rfl
  | .npInt _ => rfl
  | .npBool _ => rfl
  | .pyFloat _ => rfl
  | .pyInt _ => rfl
  | .pyBool _ => rfl
  | .pyStr _ => rfl
  | .pyNone => rfl

theorem sanitize_list_idem : ∀ l : PyList,
    sanitize_list (sanitize_list l) = sanitize_list l
  | .nil => rfl
  | .cons v rest => by
      simp [sanitize_list, sanitize_for_json_idem v, sanitize_list_idem rest]

theorem sanitize_dict_idem : ∀ m : PyDict,
    sanitize_dict (sanitize_dict m) = sanitize_dict m
  | .nil => rfl
  | .cons k v rest => by
      simp [sanitize_dict, sanitize_for_json_idem v, sanitize_dict_idem rest]

end

mutual

theorem sanitize_for_json_plain : ∀ v : PyVal, isPlain v = true → sanitize_for_json v = v
  | .dict kvs, h => by
      rw [isPlain] at h
      simp [sanitize_for_json, sanitize_dict_plain kvs h]
  | .list xs, h => by
      rw [isPlain] at h
      simp [sanitize_for_json, sanitize_list_plain xs h]
  | .npFloat _, h => by simp [isPlain] at h
  | .npInt _, h => by simp [isPlain] at h
  | .npBool _, h => by simp [isPlain] at h
  | .pyFloat _, _ => rfl
  | .pyInt _, _ => rfl
  | .pyBool _, _ => rfl
  | .pyStr _, _ => rfl
  | .pyNone, _ => rfl

theorem sanitize_list_plain : ∀ l : PyList, isPlainList l = true → sanitize_list l = l
  | .nil, _ => rfl
  | .cons v rest, h => by
      rw [isPlainList, Bool.and_eq_true] at h
      simp [sanitize_list, sanitize_for_json_plain v h.1, sanitize_list_plain rest h.2]

theorem sanitize_dict_plain : ∀ m : PyDict, isPlainDict m = true → sanitize_dict m = m
  | .nil, _ => rfl
  | .cons k v rest, h => by
      rw [isPlainDict, Bool.and_eq_true] at h
      simp [sanitize_dict, sanitize_for_json_plain v h.1, sanitize_dict_plain rest h.2]

end

/-! C9 — sanitization is idempotent and fixes plain structures -/

/-- A FeatureRecord-shaped structure holding NumPy scalars, used to witness
idempotence on a non-trivial input. -/
def demo_np_record : PyVal :=
  .dict (.cons "Heart_Rate_Mean" (.npFloat 136)
    (.cons "Sinus_Rhythm" (.npBool true)
      (.cons "Quality_OK" (.pyBool true)
        (.cons "intervals" (.list (.cons (.npInt 55) (.cons .pyNone .nil)))
          (.cons "filename" (.pyStr "sub01_l1_fecg") .nil)))))

/-- A FeatureRecord-shaped structure of plain primitives only. -/
def demo_plain_record : PyVal :=
  .dict (.cons "PR_Interval_ms" (.pyFloat 120)
    (.cons "Sinus_Rhythm" (.pyBool false)
      (.cons "notes" (.list (.cons (.pyStr "ok") (.cons (.pyInt 3) .nil))) .nil)))

/-- C9 — `sanitize_for_json` is idempotent on every
FeatureRecord-shaped structure, and on structures containing only plain
primitives it is the identity (hence trivially preserves nesting, list
order and mapping key order). -/
theorem C9_sanitize_idempotent_and_plain_id :
    (∀ v : PyVal, sanitize_for_json (sanitize_for_json v) = sanitize_for_json v) ∧
    (∀ v : PyVal, isPlain v = true → sanitize_for_json v = v) :=
  ⟨sanitize_for_json_idem, sanitize_for_json_plain⟩

/-- Witness for C9 on the two demo structures. -/
theorem C9_witness :
    sanitize_for_json (sanitize_for_json demo_np_record) = sanitize_for_json demo_np_record ∧
    isPlain demo_plain_record = true ∧
    sanitize_for_json demo_plain_record = demo_plain_record :=
  ⟨C9_sanitize_idempotent_and_plain_id.1 demo_np_record, rfl,
    C9_sanitize_idempotent_and_plain_id.2 demo_plain_record rfl⟩

/-- Witness instantiating the amended C3 characterisation at concrete
collaborators and input. -/
theorem C3_witness :
    check_signal_quality ok_filter ok_oracle [1, -1, 1, -1] 250 3 0.05 = true ↔
      ∃ (filtered : List ℚ) (signals : Delineation),
        ok_filter [1, -1, 1, -1] 250 = .ok filtered ∧
        ok_oracle filtered 250 = .ok signals ∧
        3 ≤ signals.r.length ∧
        np_std_ge filtered 0.05 = true :=
  C3_quality_gate_characterisation ok_filter ok_oracle [1, -1, 1, -1] 250
